import Mathlib

/-!
Verification development for the RDG event bot (Discord event coordination).

The definitions below are shallow embeddings of the JavaScript sources:
* the shared data model (attendees, role catalog entries, events) mirrors the
  object shapes stored in the in-memory `events` map of the bot;
* namespace `Bot` embeds the current bot (src/unnamed/part_008): its
  `handleRSVP` button handler, the `select_role_` and `select_class_` select
  menu handlers, `handleCreateEvent`, and the two timer computations
  `scheduleThreadOpening` / `scheduleThreadDeletion`;
* namespace `IndexJs` embeds the legacy bot (src/index.js): `createEvent`,
  `assignClassToUser` and its `handleRSVP`;
* namespace `Pg` embeds the startup recovery block of the newest bot
  (src/unnamed/part_007, the `client.once(ready)` handler with PostgreSQL);
* namespace `LockSpec` models the web edit-lock manager from the spec, since
  the server side of the lock API is not among the sources.

Timestamps are modelled as minutes: `Nat` minutes since an epoch for absolute
wall-clock instants, `Int` where a subtraction may go negative.  A day is 1440
minutes; the moment.js operations used by the source (`add(1, day)`,
`startOf(day)`, `add(1, minute)`, `subtract(h, hours)`, `diff`) become plain
arithmetic on these minute counts.
-/

/-- A class entry of the role catalog: `{ className, emoji }` objects of the
`classes` arrays in the sources. -/
structure ClassEntry where
  className : String
  emoji : String
deriving DecidableEq, Repr

/-- A primary role of the catalog: `{ primaryRole, emoji, classes }` objects of
the `roles` arrays in the sources. -/
structure RoleEntry where
  primaryRole : String
  emoji : String
  classes : List ClassEntry
deriving DecidableEq, Repr

/-- An attendee record as stored in `event.attendees`.  All nullable fields are
`Option`; the current bot initialises a fresh attendee with every field except
`userId` set to null. -/
structure Attendee where
  userId : String
  rsvpStatus : Option String
  primaryRole : Option String
  className : Option String
  emoji : Option String
deriving DecidableEq, Repr

/-- An event record as stored in the `events` map of the current bot
(part_008).  Discord-side identifiers that the state machine only forwards
(message ids, channel ids) are kept as the nullable string fields the source
stores. -/
structure Event where
  title : String
  date : String
  startTime : String
  endTime : String
  description : String
  restrictedRoles : List String
  attendees : List Attendee
  roles : List RoleEntry
  threadOpenHoursBefore : Nat
  threadId : Option String
  threadOpenedAt : Option String
  threadRosterMessageId : Option String
deriving DecidableEq, Repr

/-- The fresh attendee object pushed by `handleRSVP` when the user had no
record yet: `{ userId, rsvpStatus: null, primaryRole: null, className: null,
emoji: null }`. -/
def freshAttendee (uid : String) : Attendee :=
  { userId := uid, rsvpStatus := none, primaryRole := none, className := none,
    emoji := none }

/-- JavaScript `find` followed by in-place mutation of the found object:
only the first attendee whose `userId` matches is replaced by `f`. -/
def updateFirstAttendee : List Attendee → String → (Attendee → Attendee) → List Attendee
  | [], _, _ => []
  | a :: rest, uid, f =>
    if a.userId == uid then f a :: rest else a :: updateFirstAttendee rest uid f

/-- The find-or-push step of `handleRSVP`: if no attendee with this user id
exists, a fresh one is appended to the array. -/
def findOrPushAttendee (l : List Attendee) (uid : String) : List Attendee :=
  if l.any (fun a => a.userId == uid) then l else l ++ [freshAttendee uid]

namespace Bot

/-- Outcome of the `handleRSVP` button handler of part_008: the handler can
return early with the Forbidden message for restricted events, return early on
an unrecognised button status, or fall through to the status update. -/
inductive RSVPResult
  | forbidden
  | unknownStatus
  | ok
deriving DecidableEq, Repr

/-- The `switch (rawStatusFromButton.toLowerCase())` mapping of part_008:
accept, tentative and decline map to the standardised statuses, anything else
hits the default branch.  The button custom ids of the bot are already lower
case, so the `toLowerCase` call is the identity on every value the bot
produces. -/
def mapRawStatus (raw : String) : Option String :=
  if raw = "accept" then some "Attending"
  else if raw = "tentative" then some "Tentative"
  else if raw = "decline" then some "Declined"
  else none

/-- The status assignment of `handleRSVP` (part_008 lines 590 to 598): the
status is written, and a move to Tentative or Declined clears primary role,
class and cached emoji.  The source guards the clearing with a non-null test
on the old fields, which does not change the resulting record. -/
def applyStatus (s : String) (a : Attendee) : Attendee :=
  let a1 : Attendee := { a with rsvpStatus := some s }
  if s = "Tentative" ∨ s = "Declined" then
    { a1 with primaryRole := none, className := none, emoji := none }
  else a1

/-- The `handleRSVP` handler of part_008, restricted to its effect on the
event record.  In order: the restricted-roles gate (lines 555 to 562, before
any attendee is touched), the find-or-push of the attendee record, the status
switch (whose default branch returns after the push), and the status
update with its clearing rule. -/
def handleRSVP (e : Event) (uid : String) (memberRoles : List String)
    (raw : String) : RSVPResult × Event :=
  if e.restrictedRoles ≠ [] ∧
      ¬ (e.restrictedRoles.any (fun r => memberRoles.contains r) = true) then
    (RSVPResult.forbidden, e)
  else
    match mapRawStatus raw with
    | none =>
      (RSVPResult.unknownStatus,
        { e with attendees := findOrPushAttendee e.attendees uid })
    | some s =>
      (RSVPResult.ok,
        { e with attendees :=
            updateFirstAttendee (findOrPushAttendee e.attendees uid) uid (applyStatus s) })

/-- Outcome of the two select menu handlers: both return early when the
attendee record is missing and otherwise always succeed. -/
inductive SelectResult
  | attendeeNotFound
  | ok
deriving DecidableEq, Repr

/-- The mutation performed by the `select_role_` handler on the found
attendee: primary role and status are written; for the class-based roles
Infantry and Armour the handler goes on to show the class menu without
touching the emoji, for any other role the emoji is resolved from the catalog
entry of the selected role (null when the role is not in the catalog). -/
def selectRoleStep (roles : List RoleEntry) (v : String) (a : Attendee) : Attendee :=
  let a1 : Attendee := { a with primaryRole := some v, rsvpStatus := some "Attending" }
  if v = "Infantry" ∨ v = "Armour" then a1
  else
    { a1 with emoji := (roles.find? (fun r => r.primaryRole == v)).map (fun r => r.emoji) }

/-- The `select_role_` branch of the interactionCreate handler of part_008. -/
def selectRole (e : Event) (uid v : String) : SelectResult × Event :=
  if e.attendees.any (fun a => a.userId == uid) then
    (SelectResult.ok,
      { e with attendees := updateFirstAttendee e.attendees uid (selectRoleStep e.roles v) })
  else (SelectResult.attendeeNotFound, e)

/-- The mutation performed by the `select_class_` handler on the found
attendee (part_008 lines 947 to 953): the class and status are written
unconditionally; the emoji is looked up through the current primary role and
set to null whenever that lookup fails (null primary role, role not in the
catalog, or class not declared under it). -/
def selectClassStep (roles : List RoleEntry) (v : String) (a : Attendee) : Attendee :=
  let emj : Option String :=
    match a.primaryRole with
    | none => none
    | some p =>
      match roles.find? (fun r => r.primaryRole == p) with
      | none => none
      | some r => (r.classes.find? (fun c => c.className == v)).map (fun c => c.emoji)
  { a with className := some v, rsvpStatus := some "Attending", emoji := emj }

/-- The `select_class_` branch of the interactionCreate handler of part_008. -/
def selectClass (e : Event) (uid v : String) : SelectResult × Event :=
  if e.attendees.any (fun a => a.userId == uid) then
    (SelectResult.ok,
      { e with attendees := updateFirstAttendee e.attendees uid (selectClassStep e.roles v) })
  else (SelectResult.attendeeNotFound, e)

end Bot

/-- The first attendee record with the given user id, as JavaScript `find`
returns it. -/
def findAttendee (e : Event) (uid : String) : Option Attendee :=
  e.attendees.find? (fun a => a.userId == uid)

/-- The invariant of spec section 8: a status other than Attending forces both
role fields to null. -/
def roleInvariant (a : Attendee) : Prop :=
  a.rsvpStatus ≠ some "Attending" → a.primaryRole = none ∧ a.className = none

/-- `roleInvariant` for every attendee record of an event. -/
def eventRoleInvariant (e : Event) : Prop :=
  ∀ a ∈ e.attendees, roleInvariant a

/-- The catalog declares class `c` under primary role `p`. -/
abbrev declaredUnder (roles : List RoleEntry) (p c : String) : Prop :=
  ∃ r ∈ roles, r.primaryRole = p ∧ ∃ ce ∈ r.classes, ce.className = c

/-- The invariant of spec section 3: a non-null class forces a non-null
primary role whose catalog entry declares that class. -/
def classInvariant (roles : List RoleEntry) (a : Attendee) : Prop :=
  ∀ c, a.className = some c →
    ∃ p, a.primaryRole = some p ∧ declaredUnder roles p c

/-- `classInvariant` for every attendee record of an event. -/
def eventClassInvariant (e : Event) : Prop :=
  ∀ a ∈ e.attendees, classInvariant e.roles a

/-- One externally triggered operation of the attendance state machine of the
current bot, targeting one user: an RSVP button press (with the Discord roles
the member holds and the raw status of the button id), a primary role menu
selection, or a class menu selection. -/
inductive AttOp
  | rsvp (memberRoles : List String) (raw : String)
  | selRole (v : String)
  | selClass (v : String)
deriving DecidableEq, Repr

/-- The state change an operation performs on the event record. -/
def applyOp (e : Event) (uid : String) : AttOp → Event
  | AttOp.rsvp mr raw => (Bot.handleRSVP e uid mr raw).2
  | AttOp.selRole v => (Bot.selectRole e uid v).2
  | AttOp.selClass v => (Bot.selectClass e uid v).2

/-- Runs a sequence of operations against the event record. -/
def runOps (e : Event) (uid : String) : List AttOp → Event
  | [] => e
  | op :: rest => runOps (applyOp e uid op) uid rest

/-- The circumstances under which the bot user interface issues an operation:
the primary role menu is only offered to an attendee without a primary role,
and the class menu only offers classes declared under the primary role the
attendee holds.  RSVP buttons are always available. -/
def opGuard (e : Event) (uid : String) : AttOp → Prop
  | AttOp.rsvp _ _ => True
  | AttOp.selRole _ =>
    match findAttendee e uid with
    | none => True
    | some a => a.primaryRole = none
  | AttOp.selClass v =>
    match findAttendee e uid with
    | none => True
    | some a => ∃ p, a.primaryRole = some p ∧ declaredUnder e.roles p v

/-- A run of operations each of which is issued under its guard. -/
def guardedRun : Event → String → List AttOp → Prop
  | _, _, [] => True
  | e, uid, op :: rest => opGuard e uid op ∧ guardedRun (applyOp e uid op) uid rest

namespace IndexJs

/-- An event record of the legacy bot (src/index.js): `createEvent` stores
`{ title, dateTime, description, imageUrl, attendees, roles }`. -/
structure IdxEvent where
  title : String
  dateTime : String
  description : String
  imageUrl : String
  attendees : List Attendee
  roles : List RoleEntry
deriving DecidableEq, Repr

/-- The event store of the legacy bot, the plain object `events` keyed by the
derived event id. -/
abbrev IdxStore := List (String × IdxEvent)

/-- JavaScript object assignment `events[eventId] = v`: replace the value at
an existing key, otherwise append the binding. -/
def storeSet (s : IdxStore) (k : String) (v : IdxEvent) : IdxStore :=
  if s.any (fun p => p.1 == k) then
    s.map (fun p => if p.1 == k then (k, v) else p)
  else s ++ [(k, v)]

/-- The `createEvent` helper of src/index.js (lines 23 to 32): derives the
event id from the title and the formatted date and time, then assigns the new
record into the store with no duplicate check.  The id uses
`moment(dateTime).format(YYYY-MM-DD HH:mm)`; the command builds `dateTime` as
`date ++ " " ++ time` in exactly that shape, on which the format round-trip is
the identity, so the formatted string is taken as the `dateTime` input. -/
def createEvent (s : IdxStore) (title dateTime description imageUrl : String) :
    IdxStore :=
  let eventId := title ++ "-" ++ dateTime
  storeSet s eventId
    { title := title, dateTime := dateTime, description := description,
      imageUrl := imageUrl, attendees := [], roles := [] }

/-- Outcome of `assignClassToUser` of src/index.js. -/
inductive AssignResult
  | roleNotFound
  | classNotFound
  | ok
deriving DecidableEq, Repr

/-- The field overwrite `assignClassToUser` performs on an existing attendee
record: role, class and emoji are replaced, the RSVP status is untouched. -/
def assignStep (pr cn emj : String) (a : Attendee) : Attendee :=
  { a with primaryRole := some pr, className := some cn, emoji := some emj }

/-- The attendee record `assignClassToUser` pushes for a user with no record
yet: RSVP status Tentative together with the assigned role and class. -/
def assignFresh (uid pr cn emj : String) : Attendee :=
  { userId := uid, rsvpStatus := some "Tentative", primaryRole := some pr,
    className := some cn, emoji := some emj }

/-- The `assignClassToUser` command of src/index.js (lines 70 to 98): looks up
the primary role and the class in the catalog of the event; when the user has
no attendee record yet it pushes one with RSVP status Tentative and the given
role, class and class emoji, otherwise it overwrites role, class and emoji of
the existing record leaving the RSVP status untouched. -/
def assignClassToUser (e : IdxEvent) (uid pr cn : String) :
    AssignResult × IdxEvent :=
  match e.roles.find? (fun r => r.primaryRole == pr) with
  | none => (AssignResult.roleNotFound, e)
  | some role =>
    match role.classes.find? (fun c => c.className == cn) with
    | none => (AssignResult.classNotFound, e)
    | some classObj =>
      if e.attendees.any (fun a => a.userId == uid) then
        (AssignResult.ok,
          { e with attendees :=
              updateFirstAttendee e.attendees uid (assignStep pr cn classObj.emoji) })
      else
        (AssignResult.ok,
          { e with attendees := e.attendees ++ [assignFresh uid pr cn classObj.emoji] })

/-- Outcome of the legacy `handleRSVP`. -/
inductive IdxRSVPResult
  | notSignedUp
  | ok
deriving DecidableEq, Repr

/-- The `handleRSVP` command of src/index.js (lines 119 to 133): requires an
existing attendee record and overwrites its RSVP status, leaving the role and
class fields untouched. -/
def handleRSVP (e : IdxEvent) (uid status : String) : IdxRSVPResult × IdxEvent :=
  if e.attendees.any (fun a => a.userId == uid) then
    (IdxRSVPResult.ok,
      { e with attendees := updateFirstAttendee e.attendees uid (fun a =>
          { a with rsvpStatus := some status }) })
  else (IdxRSVPResult.notSignedUp, e)

end IndexJs

/-- Minutes in a day, the granularity of the timer model. -/
def minutesPerDay : Nat := 1440

/-- `moment(eventDateTime).subtract(threadOpenHoursBefore, hours)`: the instant
at which the discussion thread opens, in minutes (it may fall before the
epoch, hence `Int`). -/
def openTime (startT : Int) (threadOpenHoursBefore : Nat) : Int :=
  startT - 60 * threadOpenHoursBefore

/-- `moment(t).add(1, day)` on a minute count. -/
def addOneDay (t : Nat) : Nat := t + minutesPerDay

/-- `moment(t).startOf(day)` on a minute count: truncate to midnight. -/
def startOfDay (t : Nat) : Nat := t / minutesPerDay * minutesPerDay

/-- `moment(t).add(1, minute)` on a minute count. -/
def addOneMinute (t : Nat) : Nat := t + 1

/-- The thread deletion instant computed by `scheduleThreadDeletion`:
`moment(eventEndDateTime).add(1, day).startOf(day).add(1, minute)`. -/
def deleteTime (endT : Nat) : Nat := addOneMinute (startOfDay (addOneDay endT))

/-- `Math.max(0, fireTime.diff(now))`: the delay handed to `setTimeout` by
both scheduling functions of the bot. -/
def timerDelay (now fireTime : Int) : Int := max 0 (fireTime - now)

namespace Bot

/-- The delay with which `scheduleThreadOpening` (part_008 lines 295 to 304)
arms its timer.  The function always calls `setTimeout` with this delay; a
past open time yields delay zero rather than no timer. -/
def scheduleThreadOpening (now startT : Int) (threadOpenHoursBefore : Nat) : Int :=
  timerDelay now (openTime startT threadOpenHoursBefore)

/-- The delay with which `scheduleThreadDeletion` (part_008 lines 365 to 374)
arms its timer.  The function always calls `setTimeout` with this delay; a
past deletion time yields delay zero rather than no timer. -/
def scheduleThreadDeletion (now : Int) (endT : Nat) : Int :=
  timerDelay now (deleteTime endT)

/-- The fixed role catalog `defaultPrimaryRoles` that `handleCreateEvent`
stores on every new event (part_008 lines 426 to 448). -/
def defaultPrimaryRoles : List RoleEntry :=
  [ { primaryRole := "Commander", emoji := "👑", classes := [] },
    { primaryRole := "Infantry", emoji := "🛡️",
      classes :=
        [ { className := "Anti-Tank", emoji := "💥" },
          { className := "Assault", emoji := "🏃" },
          { className := "Automatic Rifleman", emoji := "💨" },
          { className := "Engineer", emoji := "🛠️" },
          { className := "Machine Gunner", emoji := "🔫" },
          { className := "Medic", emoji := "🩹" },
          { className := "Officer", emoji := "🌟" },
          { className := "Rifleman", emoji := "🎯" },
          { className := "Support", emoji := "📦" } ] },
    { primaryRole := "Armour", emoji := "🪖",
      classes :=
        [ { className := "Tank Commander", emoji := "🪖" },
          { className := "Crewman", emoji := "🔧" } ] },
    { primaryRole := "Recon", emoji := "🔭", classes := [] } ]

/-- The event store of the current bot, the `events` object keyed by the
derived event id. -/
abbrev BotStore := List (String × Event)

/-- Outcome of `handleCreateEvent`. -/
inductive CreateResult
  | duplicate
  | created
deriving DecidableEq, Repr

/-- The store mutation of `handleCreateEvent` (part_008 lines 406 to 465): the
event id is the title joined with the formatted date and start time
(`moment(date ++ " " ++ startTime).format(DD-MM-YYYY HH:mm)`, the identity on
the DD-MM-YYYY HH:mm inputs of the command, so the join itself is taken); an
id already present in the store makes the handler return with the duplicate
message before any write, otherwise the new record with the default role
catalog and null thread fields is stored. -/
def handleCreateEvent (s : BotStore) (title date startTime endTime description : String)
    (restrictedRoleIds : List String) (threadOpenHoursBefore : Nat) :
    CreateResult × BotStore :=
  if s.any (fun p => p.1 == title ++ "-" ++ date ++ " " ++ startTime) then
    (CreateResult.duplicate, s)
  else
    (CreateResult.created,
      s ++ [(title ++ "-" ++ date ++ " " ++ startTime,
        { title := title, date := date, startTime := startTime, endTime := endTime,
          description := description, restrictedRoles := restrictedRoleIds,
          attendees := [], roles := defaultPrimaryRoles,
          threadOpenHoursBefore := threadOpenHoursBefore, threadId := none,
          threadOpenedAt := none, threadRosterMessageId := none })])

end Bot

namespace Pg

/-- The slice of a persisted event row that the startup recovery block of the
newest bot (src/unnamed/part_007) reads: parsed start and end instants in
minutes, the lead time in hours, and the thread fields. -/
structure StoredEvent where
  startT : Int
  endT : Nat
  threadOpenHoursBefore : Nat
  threadId : Option String
  threadOpenedAt : Option String
deriving DecidableEq, Repr

/-- A timer armed during recovery, with the delay handed to `setTimeout` by
the scheduling function it calls. -/
inductive TimerAction
  | scheduleOpen (delay : Int)
  | scheduleClose (delay : Int)
deriving DecidableEq, Repr

/-- The open rescheduling the `client.once(ready)` handler of part_007
performs for one loaded event row: only when the lead time is positive, a
future open instant reschedules the opening, and a past open instant with no
thread yet opens immediately (both through `scheduleThreadOpening`, whose
delay is `timerDelay`). -/
def recoverOpenActs (now : Int) (e : StoredEvent) : List TimerAction :=
  if e.threadOpenHoursBefore > 0 then
    if now < openTime e.startT e.threadOpenHoursBefore then
      [TimerAction.scheduleOpen
        (timerDelay now (openTime e.startT e.threadOpenHoursBefore))]
    else if e.threadId = none ∧ openTime e.startT e.threadOpenHoursBefore < now then
      [TimerAction.scheduleOpen
        (timerDelay now (openTime e.startT e.threadOpenHoursBefore))]
    else []
  else []

/-- The deletion rescheduling of the recovery block: only an open thread whose
deletion instant is still in the future gets a timer. -/
def recoverCloseActs (now : Int) (e : StoredEvent) : List TimerAction :=
  if e.threadId ≠ none ∧ e.threadOpenedAt ≠ none then
    if now < (deleteTime e.endT : Int) then
      [TimerAction.scheduleClose (timerDelay now (deleteTime e.endT))]
    else []
  else []

/-- The complete re-evaluation of one loaded event row on startup. -/
def recoverEvent (now : Int) (e : StoredEvent) : List TimerAction :=
  recoverOpenActs now e ++ recoverCloseActs now e

end Pg

namespace LockSpec

/-- Modelled from the spec: the server side of the web edit-lock API (the
POST lock, POST unlock and GET lock-status endpoints that the dashboard
client in src/bot/web/static/main-v2.js calls) is not among the source files;
only the JS client is.  Spec section 4.3: at most one live lock per event,
with holder identity, acquisition timestamp and expiry, live iff now is
before the expiry. -/
structure EditLock where
  holder : String
  acquiredAt : Nat
  expiry : Nat
deriving DecidableEq, Repr

/-- Modelled from the spec: the fixed lock TTL, 60 seconds in the reference
design, matching the 60 second heartbeat interval of the client. -/
def lockTTL : Nat := 60

/-- Outcome of an acquire call: success, or Locked carrying the current
holder identity and expiry for display. -/
inductive AcquireResult
  | ok
  | locked (holder : String) (expiry : Nat)
deriving DecidableEq, Repr

/-- Modelled from the spec: acquire succeeds iff no live lock exists or the
live lock is held by the caller (re-acquisition renews), setting the expiry
to now plus the TTL; otherwise it fails with Locked, reporting the current
holder and expiry, and leaves the lock unchanged.  An expired lock is
reclaimed silently. -/
def acquire (now : Nat) (lock : Option EditLock) (holderId : String) :
    AcquireResult × Option EditLock :=
  match lock with
  | none =>
    (AcquireResult.ok,
      some { holder := holderId, acquiredAt := now, expiry := now + lockTTL })
  | some l =>
    if now < l.expiry ∧ l.holder ≠ holderId then
      (AcquireResult.locked l.holder l.expiry, some l)
    else
      (AcquireResult.ok,
        some { holder := holderId, acquiredAt := now, expiry := now + lockTTL })

end LockSpec

/-- The close instant as the spec words it: 00:01 local time on the day after
the day in which the event end instant falls. -/
def specCloseTime (endT : Nat) : Nat :=
  (endT / minutesPerDay + 1) * minutesPerDay + 1

/-- The open instant as the spec words it: event start minus the configured
lead time. -/
def specOpenTime (startT : Int) (leadHours : Nat) : Int :=
  startT - 60 * leadHours

/-- A concrete event of the current bot with the default catalog, no access
restriction and no attendees, used to evaluate the embedded handlers. -/
def botEvent : Event :=
  { title := "Op", date := "01-01-2025", startTime := "10:00", endTime := "12:00",
    description := "d", restrictedRoles := [], attendees := [],
    roles := Bot.defaultPrimaryRoles, threadOpenHoursBefore := 2,
    threadId := none, threadOpenedAt := none, threadRosterMessageId := none }

/-- `botEvent` with one attendee record confirmed as Infantry Medic. -/
def confirmedEvent : Event :=
  { botEvent with attendees :=
      [{ userId := "u", rsvpStatus := some "Attending",
         primaryRole := some "Infantry", className := some "Medic",
         emoji := some "🩹" }] }

/-- An attendee holding the Commander primary role, which declares no
classes. -/
def commanderAttendee : Attendee :=
  { userId := "u", rsvpStatus := some "Attending", primaryRole := some "Commander",
    className := none, emoji := some "👑" }

/-- `botEvent` with `commanderAttendee` as its only attendee record. -/
def commanderEvent : Event :=
  { botEvent with attendees := [commanderAttendee] }

/-- `botEvent` restricted to holders of the credential role r1. -/
def restrictedEvent : Event :=
  { botEvent with restrictedRoles := ["r1"] }

/-- A legacy (src/index.js) event with the same catalog and no attendees. -/
def legacyEvent : IndexJs.IdxEvent :=
  { title := "Op", dateTime := "2025-01-01 10:00", description := "d",
    imageUrl := "i", attendees := [], roles := Bot.defaultPrimaryRoles }

/-- A persisted event row whose thread is open and whose lead time is two
hours; its deletion instant is minute 1441. -/
def openThreadRow : Pg.StoredEvent :=
  { startT := 600, endT := 700, threadOpenHoursBefore := 2,
    threadId := some "t", threadOpenedAt := some "x" }

/-- A persisted event row whose thread is open with no open lead configured;
its deletion instant is minute 1441. -/
def openThreadRowNoLead : Pg.StoredEvent :=
  { startT := 600, endT := 700, threadOpenHoursBefore := 0,
    threadId := some "t", threadOpenedAt := some "x" }

/-- The stale-interface operation sequence: accept, pick Infantry, decline
(which clears the role), then answer the still-open class menu with Medic. -/
def staleMenuTrace : List AttOp :=
  [AttOp.rsvp [] "accept", AttOp.selRole "Infantry", AttOp.rsvp [] "decline",
   AttOp.selClass "Medic"]

/-- An operation sequence as the user interface issues it: accept, pick
Infantry while no role is held, pick the declared class Medic, then decline. -/
def guidedTrace : List AttOp :=
  [AttOp.rsvp [] "accept", AttOp.selRole "Infantry", AttOp.selClass "Medic",
   AttOp.rsvp [] "decline"]

/-- Membership in an updated attendee list: every element either was already
present, or is the image under `f` of the first record matching the user id. -/
theorem updateFirstAttendee_mem {l : List Attendee} {uid : String}
    {f : Attendee → Attendee} {x : Attendee}
    (hx : x ∈ updateFirstAttendee l uid f) :
    x ∈ l ∨ ∃ a, l.find? (fun b => b.userId == uid) = some a ∧ x = f a := by
  induction l with
  | nil => simp [updateFirstAttendee] at hx
  | cons a rest ih =>
    by_cases h : (a.userId == uid) = true
    · rw [updateFirstAttendee, if_pos h] at hx
      rcases List.mem_cons.mp hx with h1 | h1
      · exact Or.inr ⟨a, by rw [List.find?_cons]; simp only [h], h1⟩
      · exact Or.inl (List.mem_cons_of_mem _ h1)
    · rw [updateFirstAttendee, if_neg h] at hx
      rcases List.mem_cons.mp hx with h1 | h1
      · exact Or.inl (h1 ▸ List.mem_cons_self _ _)
      · rcases ih h1 with h2 | ⟨b, hb, hxb⟩
        · exact Or.inl (List.mem_cons_of_mem _ h2)
        · refine Or.inr ⟨b, ?_, hxb⟩
          rw [List.find?_cons]
          simp only [Bool.not_eq_true] at h
          simp only [h]
          exact hb

/-- When `f` does not change the user id, updating the first match commutes
with looking it up. -/
theorem updateFirstAttendee_find? {l : List Attendee} {uid : String}
    {f : Attendee → Attendee} (huid : ∀ a, (f a).userId = a.userId) :
    (updateFirstAttendee l uid f).find? (fun b => b.userId == uid) =
      (l.find? (fun b => b.userId == uid)).map f := by
  induction l with
  | nil => rfl
  | cons a rest ih =>
    by_cases h : (a.userId == uid) = true
    · have hfa : ((f a).userId == uid) = true := by rw [huid a]; exact h
      rw [updateFirstAttendee, if_pos h, List.find?_cons, List.find?_cons]
      simp only [h, hfa, Option.map_some']
    · rw [updateFirstAttendee, if_neg h, List.find?_cons, List.find?_cons]
      simp only [Bool.not_eq_true] at h
      simp only [h]
      exact ih

/-- Membership after the find-or-push step: every element was present or is
the fresh attendee record. -/
theorem findOrPushAttendee_mem {l : List Attendee} {uid : String} {x : Attendee}
    (hx : x ∈ findOrPushAttendee l uid) : x ∈ l ∨ x = freshAttendee uid := by
  unfold findOrPushAttendee at hx
  by_cases h : (l.any fun a => a.userId == uid) = true
  · rw [if_pos h] at hx; exact Or.inl hx
  · rw [if_neg h] at hx
    rcases List.mem_append.mp hx with h1 | h1
    · exact Or.inl h1
    · exact Or.inr (List.mem_singleton.mp h1)

/-- After the find-or-push step an attendee record with the user id exists. -/
theorem findOrPushAttendee_find?_isSome (l : List Attendee) (uid : String) :
    ∃ a, (findOrPushAttendee l uid).find? (fun b => b.userId == uid) = some a := by
  unfold findOrPushAttendee
  by_cases h : (l.any fun a => a.userId == uid) = true
  · rw [if_pos h]
    rcases List.any_eq_true.mp h with ⟨x, hxl, hxp⟩
    rcases hfind : l.find? (fun b => b.userId == uid) with _ | b
    · exact absurd hxp (by simpa using List.find?_eq_none.mp hfind x hxl)
    · exact ⟨b, hfind⟩
  · rw [if_neg h]
    rcases hfind : (l ++ [freshAttendee uid]).find? (fun b => b.userId == uid) with _ | b
    · exfalso
      have hfr := List.find?_eq_none.mp hfind (freshAttendee uid) (by simp)
      simp [freshAttendee] at hfr
    · exact ⟨b, hfind⟩

/-- An attendee list in which some record matches the user id has a first
match. -/
theorem any_of_find? {l : List Attendee} {uid : String} {a : Attendee}
    (h : l.find? (fun b => b.userId == uid) = some a) :
    (l.any fun b => b.userId == uid) = true := by
  have hp := List.find?_some h
  exact List.any_eq_true.mpr ⟨a, List.mem_of_find?_eq_some h, hp⟩

/-- The status switch of `handleRSVP` only produces the three standardised
statuses. -/
theorem mapRawStatus_cases {raw s : String} (h : Bot.mapRawStatus raw = some s) :
    s = "Attending" ∨ s = "Tentative" ∨ s = "Declined" := by
  unfold Bot.mapRawStatus at h
  split_ifs at h <;> simp_all

/-- The status update never changes the user id. -/
theorem applyStatus_userId (s : String) (a : Attendee) :
    (Bot.applyStatus s a).userId = a.userId := by
  unfold Bot.applyStatus
  split <;> rfl

/-- A move to Tentative or Declined writes the status and clears role, class
and emoji. -/
theorem applyStatus_clears {s : String}
    (hs : s = "Tentative" ∨ s = "Declined") (a : Attendee) :
    (Bot.applyStatus s a).rsvpStatus = some s ∧
    (Bot.applyStatus s a).primaryRole = none ∧
    (Bot.applyStatus s a).className = none ∧
    (Bot.applyStatus s a).emoji = none := by
  rcases hs with h | h <;> subst h <;> unfold Bot.applyStatus <;>
    rw [if_pos (by decide)] <;> exact ⟨rfl, rfl, rfl, rfl⟩

/-- Any standardised status update leaves the attendee record satisfying the
status-forces-null-roles invariant. -/
theorem applyStatus_roleInvariant {s : String}
    (hs : s = "Attending" ∨ s = "Tentative" ∨ s = "Declined") (a : Attendee) :
    roleInvariant (Bot.applyStatus s a) := by
  rcases hs with h | h | h <;> subst h <;> unfold Bot.applyStatus roleInvariant
  · rw [if_neg (by decide)]
    intro hne
    exact absurd rfl hne
  · rw [if_pos (by decide)]
    intro _
    exact ⟨rfl, rfl⟩
  · rw [if_pos (by decide)]
    intro _
    exact ⟨rfl, rfl⟩

/-- Any standardised status update preserves the class-declared-under-role
invariant: it never touches the role fields except to clear them. -/
theorem applyStatus_classInvariant {roles : List RoleEntry} {s : String}
    (hs : s = "Attending" ∨ s = "Tentative" ∨ s = "Declined") {a : Attendee}
    (h : classInvariant roles a) : classInvariant roles (Bot.applyStatus s a) := by
  rcases hs with h1 | h1 | h1 <;> subst h1 <;> unfold Bot.applyStatus
  · rw [if_neg (by decide)]
    intro c hc
    exact h c hc
  · rw [if_pos (by decide)]
    intro c hc
    exact Option.noConfusion hc
  · rw [if_pos (by decide)]
    intro c hc
    exact Option.noConfusion hc

/-- The fresh attendee record satisfies the status invariant. -/
theorem freshAttendee_roleInvariant (uid : String) :
    roleInvariant (freshAttendee uid) := fun _ => ⟨rfl, rfl⟩

/-- The fresh attendee record satisfies the class invariant. -/
theorem freshAttendee_classInvariant (roles : List RoleEntry) (uid : String) :
    classInvariant roles (freshAttendee uid) := fun _ hc => Option.noConfusion hc

/-- The primary role selection step always leaves the attendee Attending. -/
theorem selectRoleStep_status (roles : List RoleEntry) (v : String) (a : Attendee) :
    (Bot.selectRoleStep roles v a).rsvpStatus = some "Attending" := by
  unfold Bot.selectRoleStep
  split <;> rfl

/-- The primary role selection step never touches the class field. -/
theorem selectRoleStep_className (roles : List RoleEntry) (v : String) (a : Attendee) :
    (Bot.selectRoleStep roles v a).className = a.className := by
  unfold Bot.selectRoleStep
  split <;> rfl

/-- The fields written by the class selection step. -/
theorem selectClassStep_fields (roles : List RoleEntry) (v : String) (a : Attendee) :
    (Bot.selectClassStep roles v a).className = some v ∧
    (Bot.selectClassStep roles v a).primaryRole = a.primaryRole ∧
    (Bot.selectClassStep roles v a).rsvpStatus = some "Attending" ∧
    (Bot.selectClassStep roles v a).userId = a.userId :=
  ⟨rfl, rfl, rfl, rfl⟩

/-- `handleRSVP` does not change the role catalog of the event. -/
theorem handleRSVP_roles (e : Event) (uid : String) (mr : List String) (raw : String) :
    ((Bot.handleRSVP e uid mr raw).2).roles = e.roles := by
  unfold Bot.handleRSVP
  split
  · rfl
  · split <;> rfl

/-- `selectRole` does not change the role catalog of the event. -/
theorem selectRole_roles (e : Event) (uid v : String) :
    ((Bot.selectRole e uid v).2).roles = e.roles := by
  unfold Bot.selectRole
  split <;> rfl

/-- `selectClass` does not change the role catalog of the event. -/
theorem selectClass_roles (e : Event) (uid v : String) :
    ((Bot.selectClass e uid v).2).roles = e.roles := by
  unfold Bot.selectClass
  split <;> rfl

/-- `handleRSVP` preserves the status-forces-null-roles invariant. -/
theorem handleRSVP_roleInvariant (e : Event) (uid : String) (mr : List String)
    (raw : String) (h : eventRoleInvariant e) :
    eventRoleInvariant (Bot.handleRSVP e uid mr raw).2 := by
  unfold eventRoleInvariant at h ⊢
  unfold Bot.handleRSVP
  split
  · exact h
  · split
    · intro a ha
      rcases findOrPushAttendee_mem ha with h1 | h1
      · exact h a h1
      · subst h1
        exact freshAttendee_roleInvariant uid
    · rename_i s hms
      intro a ha
      rcases updateFirstAttendee_mem ha with h1 | ⟨b, hb, hab⟩
      · rcases findOrPushAttendee_mem h1 with h2 | h2
        · exact h a h2
        · subst h2
          exact freshAttendee_roleInvariant uid
      · subst hab
        exact applyStatus_roleInvariant (mapRawStatus_cases hms) b

/-- `selectRole` preserves the status-forces-null-roles invariant. -/
theorem selectRole_roleInvariant (e : Event) (uid v : String)
    (h : eventRoleInvariant e) : eventRoleInvariant (Bot.selectRole e uid v).2 := by
  unfold eventRoleInvariant at h ⊢
  unfold Bot.selectRole
  split
  · intro a ha
    rcases updateFirstAttendee_mem ha with h1 | ⟨b, _, hab⟩
    · exact h a h1
    · subst hab
      intro hne
      exact absurd (selectRoleStep_status e.roles v b) hne
  · exact h

/-- `selectClass` preserves the status-forces-null-roles invariant. -/
theorem selectClass_roleInvariant (e : Event) (uid v : String)
    (h : eventRoleInvariant e) : eventRoleInvariant (Bot.selectClass e uid v).2 := by
  unfold eventRoleInvariant at h ⊢
  unfold Bot.selectClass
  split
  · intro a ha
    rcases updateFirstAttendee_mem ha with h1 | ⟨b, _, hab⟩
    · exact h a h1
    · subst hab
      intro hne
      exact absurd (selectClassStep_fields e.roles v b).2.2.1 hne
  · exact h

/-- Every operation of the current bot preserves the status-forces-null-roles
invariant. -/
theorem applyOp_roleInvariant (e : Event) (uid : String) (op : AttOp)
    (h : eventRoleInvariant e) : eventRoleInvariant (applyOp e uid op) := by
  cases op with
  | rsvp mr raw => exact handleRSVP_roleInvariant e uid mr raw h
  | selRole v => exact selectRole_roleInvariant e uid v h
  | selClass v => exact selectClass_roleInvariant e uid v h

/-- `handleRSVP` preserves the class-declared-under-role invariant. -/
theorem handleRSVP_classInvariant (e : Event) (uid : String) (mr : List String)
    (raw : String) (h : eventClassInvariant e) :
    eventClassInvariant (Bot.handleRSVP e uid mr raw).2 := by
  unfold eventClassInvariant at h ⊢
  rw [handleRSVP_roles]
  unfold Bot.handleRSVP
  split
  · exact h
  · split
    · intro a ha
      rcases findOrPushAttendee_mem ha with h1 | h1
      · exact h a h1
      · subst h1
        exact freshAttendee_classInvariant e.roles uid
    · rename_i s hms
      intro a ha
      rcases updateFirstAttendee_mem ha with h1 | ⟨b, hb, hab⟩
      · rcases findOrPushAttendee_mem h1 with h2 | h2
        · exact h a h2
        · subst h2
          exact freshAttendee_classInvariant e.roles uid
      · subst hab
        rcases findOrPushAttendee_mem (List.mem_of_find?_eq_some hb) with h2 | h2
        · exact applyStatus_classInvariant (mapRawStatus_cases hms) (h b h2)
        · subst h2
          exact applyStatus_classInvariant (mapRawStatus_cases hms)
            (freshAttendee_classInvariant e.roles uid)

/-- `selectRole`, issued as the user interface issues it (only to an attendee
without a primary role), preserves the class-declared-under-role invariant. -/
theorem selectRole_classInvariant (e : Event) (uid v : String)
    (hg : ∀ a, findAttendee e uid = some a → a.primaryRole = none)
    (h : eventClassInvariant e) : eventClassInvariant (Bot.selectRole e uid v).2 := by
  unfold eventClassInvariant at h ⊢
  rw [selectRole_roles]
  unfold Bot.selectRole
  split
  · intro a ha
    rcases updateFirstAttendee_mem ha with h1 | ⟨b, hb, hab⟩
    · exact h a h1
    · subst hab
      have hbpr : b.primaryRole = none := hg b hb
      have hbcn : b.className = none := by
        rcases hcn : b.className with _ | c
        · rfl
        · rcases h b (List.mem_of_find?_eq_some hb) c hcn with ⟨p, hp, _⟩
          rw [hbpr] at hp
          exact Option.noConfusion hp
      intro c hc
      rw [selectRoleStep_className, hbcn] at hc
      exact Option.noConfusion hc
  · exact h

/-- `selectClass`, issued as the user interface issues it (only for a class
declared under the primary role the attendee holds), preserves the
class-declared-under-role invariant. -/
theorem selectClass_classInvariant (e : Event) (uid v : String)
    (hg : ∀ a, findAttendee e uid = some a →
      ∃ p, a.primaryRole = some p ∧ declaredUnder e.roles p v)
    (h : eventClassInvariant e) : eventClassInvariant (Bot.selectClass e uid v).2 := by
  unfold eventClassInvariant at h ⊢
  rw [selectClass_roles]
  unfold Bot.selectClass
  split
  · intro a ha
    rcases updateFirstAttendee_mem ha with h1 | ⟨b, hb, hab⟩
    · exact h a h1
    · subst hab
      rcases hg b hb with ⟨p, hp, hdecl⟩
      intro c hc
      have hcv : some v = some c :=
        ((selectClassStep_fields e.roles v b).1).symm.trans hc
      refine ⟨p, ?_, Option.some.inj hcv ▸ hdecl⟩
      rw [(selectClassStep_fields e.roles v b).2.1]
      exact hp
  · exact h

/-- Every operation issued under its user-interface guard preserves the
class-declared-under-role invariant. -/
theorem applyOp_classInvariant (e : Event) (uid : String) (op : AttOp)
    (hg : opGuard e uid op) (h : eventClassInvariant e) :
    eventClassInvariant (applyOp e uid op) := by
  cases op with
  | rsvp mr raw => exact handleRSVP_classInvariant e uid mr raw h
  | selRole v =>
    refine selectRole_classInvariant e uid v ?_ h
    intro a ha
    unfold opGuard at hg
    rw [ha] at hg
    exact hg
  | selClass v =>
    refine selectClass_classInvariant e uid v ?_ h
    intro a ha
    unfold opGuard at hg
    rw [ha] at hg
    exact hg

/-- Sanity check: the embedded RSVP handler pushes a fresh attendee and sets
the standardised Attending status, as the source does in the concrete
scenario of spec section 8. -/
theorem handleRSVP_accept_pushes_fresh :
    (Bot.handleRSVP
      { title := "t", date := "d", startTime := "s", endTime := "e",
        description := "", restrictedRoles := [], attendees := [],
        roles := [], threadOpenHoursBefore := 0, threadId := none,
        threadOpenedAt := none, threadRosterMessageId := none }
      "u" [] "accept").2.attendees =
    [{ userId := "u", rsvpStatus := some "Attending", primaryRole := none,
       className := none, emoji := none }] := by decide

/-- C9: the venue-close fire time computed by the scheduler equals the event
end instant advanced by one day, truncated to midnight, plus one minute —
00:01 on the day after the event finishes — and the venue-open fire time
equals the event start instant minus the configured lead time. -/
theorem c9_timer_instants (endT : Nat) (startT : Int) (leadHours : Nat) :
    deleteTime endT = specCloseTime endT ∧
    openTime startT leadHours = specOpenTime startT leadHours := by
  constructor
  · unfold deleteTime specCloseTime addOneMinute startOfDay addOneDay minutesPerDay
    omega
  · rfl

/-- C8: a timer whose computed fire time is already past at scheduling time is
armed with zero delay (it fires immediately) rather than being dropped; in
particular an event with a two hour lead time starting sixty minutes from now
gets a zero-delay open timer. -/
theorem c8_past_due_zero_delay (now startT : Int) (endT leadHours : Nat)
    (hopen : openTime startT leadHours ≤ now)
    (hclose : (deleteTime endT : Int) ≤ now) :
    Bot.scheduleThreadOpening now startT leadHours = 0 ∧
    Bot.scheduleThreadDeletion now endT = 0 ∧
    Bot.scheduleThreadOpening now (now + 60) 2 = 0 := by
  refine ⟨?_, ?_, ?_⟩
  · unfold Bot.scheduleThreadOpening timerDelay
    apply max_eq_left
    omega
  · unfold Bot.scheduleThreadDeletion timerDelay
    apply max_eq_left
    omega
  · unfold Bot.scheduleThreadOpening timerDelay openTime
    apply max_eq_left
    omega

/-- Witness for C8 at now 10000, start 500, lead 2 hours, end 700. -/
theorem c8_past_due_zero_delay_witness :
    openTime 500 2 ≤ 10000 ∧ (deleteTime 700 : Int) ≤ 10000 ∧
    (Bot.scheduleThreadOpening 10000 500 2 = 0 ∧
      Bot.scheduleThreadDeletion 10000 700 = 0 ∧
      Bot.scheduleThreadOpening 10000 (10000 + 60) 2 = 0) :=
  ⟨by decide, by decide,
    c8_past_due_zero_delay 10000 500 700 2 (by decide) (by decide)⟩

/-- Whenever acquire succeeds the lock is held by the caller with expiry now
plus the TTL. -/
theorem acquire_ok_state (t : Nat) (lk : Option LockSpec.EditLock) (hid : String)
    (hok : (LockSpec.acquire t lk hid).1 = LockSpec.AcquireResult.ok) :
    (LockSpec.acquire t lk hid).2 =
      some { holder := hid, acquiredAt := t, expiry := t + LockSpec.lockTTL } := by
  rcases lk with _ | l
  · rfl
  · simp only [LockSpec.acquire] at hok ⊢
    split_ifs at hok ⊢ with hc
    rfl

/-- Acquire succeeds exactly when no live lock held by another exists. -/
theorem acquire_ok_iff (now : Nat) (lk : Option LockSpec.EditLock) (hid : String) :
    (LockSpec.acquire now lk hid).1 = LockSpec.AcquireResult.ok ↔
      ∀ l, lk = some l → now < l.expiry → l.holder = hid := by
  rcases lk with _ | l
  · simp [LockSpec.acquire]
  · simp only [LockSpec.acquire]
    split_ifs with hc
    · constructor
      · intro hcontra
        exact absurd hcontra (by simp)
      · intro hall
        exact absurd (hall l rfl hc.1) hc.2
    · constructor
      · intro _ l2 hl2 hlt
        injection hl2 with hl2e
        subst hl2e
        by_contra hne
        exact hc ⟨hlt, hne⟩
      · intro _
        rfl

/-- C3: after A acquires the lock, an acquire by a different holder B before
the TTL has elapsed fails with Locked, reporting A as holder together with
the expiry, and leaves the lock unchanged; in general acquire succeeds
exactly when no live lock exists or the live lock is held by the caller. -/
theorem c3_lock_exclusion (t0 t1 : Nat) (lock0 : Option LockSpec.EditLock)
    (A B : String) (hAB : A ≠ B)
    (h0 : (LockSpec.acquire t0 lock0 A).1 = LockSpec.AcquireResult.ok)
    (h1 : t1 < t0 + LockSpec.lockTTL) :
    (LockSpec.acquire t1 (LockSpec.acquire t0 lock0 A).2 B).1 =
      LockSpec.AcquireResult.locked A (t0 + LockSpec.lockTTL) ∧
    (LockSpec.acquire t1 (LockSpec.acquire t0 lock0 A).2 B).2 =
      (LockSpec.acquire t0 lock0 A).2 ∧
    ∀ (now : Nat) (lk : Option LockSpec.EditLock) (hid : String),
      ((LockSpec.acquire now lk hid).1 = LockSpec.AcquireResult.ok ↔
        ∀ l, lk = some l → now < l.expiry → l.holder = hid) := by
  have hstate := acquire_ok_state t0 lock0 A h0
  rw [hstate]
  refine ⟨?_, ?_, fun now lk hid => acquire_ok_iff now lk hid⟩
  · simp only [LockSpec.acquire]
    split_ifs with hc
    · rfl
    · exact absurd ⟨h1, hAB⟩ hc
  · simp only [LockSpec.acquire]
    split_ifs with hc
    · rfl
    · exact absurd ⟨h1, hAB⟩ hc

/-- Witness for C3: alice locks at 0, bob is refused at 30. -/
theorem c3_lock_exclusion_witness :
    ("alice" : String) ≠ "bob" ∧
    (LockSpec.acquire 0 none "alice").1 = LockSpec.AcquireResult.ok ∧
    30 < 0 + LockSpec.lockTTL ∧
    (LockSpec.acquire 30 (LockSpec.acquire 0 none "alice").2 "bob").1 =
      LockSpec.AcquireResult.locked "alice" (0 + LockSpec.lockTTL) :=
  ⟨by decide, by decide, by decide,
    (c3_lock_exclusion 0 30 none "alice" "bob" (by decide) (by decide)
      (by decide)).1⟩

/-- C7: for an event with a non-empty restriction set, the RSVP handler
returns the Forbidden outcome exactly when the member holds none of the
required credential roles, and on that outcome the event record — attendee
list included — is unchanged. -/
theorem c7_forbidden_iff (e : Event) (uid : String) (mr : List String)
    (raw : String) (hr : e.restrictedRoles ≠ []) :
    ((Bot.handleRSVP e uid mr raw).1 = Bot.RSVPResult.forbidden ↔
      ∀ r ∈ e.restrictedRoles, r ∉ mr) ∧
    ((Bot.handleRSVP e uid mr raw).1 = Bot.RSVPResult.forbidden →
      (Bot.handleRSVP e uid mr raw).2 = e) := by
  unfold Bot.handleRSVP
  by_cases hc : e.restrictedRoles ≠ [] ∧
      ¬ (e.restrictedRoles.any (fun r => mr.contains r) = true)
  · rw [if_pos hc]
    refine ⟨⟨fun _ => ?_, fun _ => rfl⟩, fun _ => rfl⟩
    intro r hrmem hrmr
    exact hc.2 (List.any_eq_true.mpr ⟨r, hrmem, List.elem_iff.mpr hrmr⟩)
  · rw [if_neg hc]
    have hex : ¬ ∀ r ∈ e.restrictedRoles, r ∉ mr := by
      intro hall
      rcases not_and_or.mp hc with h1 | h1
      · exact h1 hr
      · rcases List.any_eq_true.mp (not_not.mp h1) with ⟨r, hrmem, hrc⟩
        exact hall r hrmem (List.elem_iff.mp hrc)
    rcases hms : Bot.mapRawStatus raw with _ | s <;>
      exact ⟨iff_of_false (by simp) hex, fun hcontra => absurd hcontra (by simp)⟩

/-- Witness for C7 on the restricted event with a member holding no roles. -/
theorem c7_forbidden_iff_witness :
    restrictedEvent.restrictedRoles ≠ [] ∧
    (((Bot.handleRSVP restrictedEvent "u" [] "accept").1 =
        Bot.RSVPResult.forbidden ↔
      ∀ r ∈ restrictedEvent.restrictedRoles, r ∉ ([] : List String)) ∧
    ((Bot.handleRSVP restrictedEvent "u" [] "accept").1 =
        Bot.RSVPResult.forbidden →
      (Bot.handleRSVP restrictedEvent "u" [] "accept").2 = restrictedEvent)) :=
  ⟨by decide, c7_forbidden_iff restrictedEvent "u" [] "accept" (by decide)⟩

/-- C10 (amended): the current bot rejects a creation whose derived id is
already stored, leaving the store unchanged, and creation preserves
distinctness of the stored ids; the legacy createEvent of src/index.js has no
such check and overwrites (see the counterexample). -/
theorem c10_duplicate_rejected (s : Bot.BotStore)
    (title date startTime endTime description : String)
    (rr : List String) (lead : Nat)
    (hdup : (s.any fun p => p.1 == title ++ "-" ++ date ++ " " ++ startTime) = true) :
    Bot.handleCreateEvent s title date startTime endTime description rr lead =
      (Bot.CreateResult.duplicate, s) ∧
    ∀ (s2 : Bot.BotStore), (s2.map Prod.fst).Nodup →
      (((Bot.handleCreateEvent s2 title date startTime endTime description
          rr lead).2).map Prod.fst).Nodup := by
  constructor
  · unfold Bot.handleCreateEvent
    rw [if_pos hdup]
  · intro s2 hnd
    unfold Bot.handleCreateEvent
    by_cases h2 : (s2.any fun p => p.1 == title ++ "-" ++ date ++ " " ++ startTime) = true
    · rw [if_pos h2]
      exact hnd
    · rw [if_neg h2]
      rw [List.map_append, List.nodup_append]
      refine ⟨hnd, List.nodup_singleton _, ?_⟩
      intro x hx hx2
      simp only [List.map_cons, List.map_nil, List.mem_singleton] at hx2
      subst hx2
      rcases List.mem_map.mp hx with ⟨p, hp, hpx⟩
      apply h2
      refine List.any_eq_true.mpr ⟨p, hp, ?_⟩
      rw [hpx]
      exact beq_self_eq_true _

/-- Witness for C10: creating the same title, date and start time twice. -/
theorem c10_duplicate_rejected_witness :
    (((Bot.handleCreateEvent [] "Op" "01-01-2025" "10:00" "12:00" "d" [] 2).2.any
        fun p => p.1 == "Op" ++ "-" ++ "01-01-2025" ++ " " ++ "10:00") = true) ∧
    Bot.handleCreateEvent
        (Bot.handleCreateEvent [] "Op" "01-01-2025" "10:00" "12:00" "d" [] 2).2
        "Op" "01-01-2025" "10:00" "12:00" "d" [] 2 =
      (Bot.CreateResult.duplicate,
        (Bot.handleCreateEvent [] "Op" "01-01-2025" "10:00" "12:00" "d" [] 2).2) :=
  ⟨by decide,
    (c10_duplicate_rejected
      (Bot.handleCreateEvent [] "Op" "01-01-2025" "10:00" "12:00" "d" [] 2).2
      "Op" "01-01-2025" "10:00" "12:00" "d" [] 2 (by decide)).1⟩

/-- C10 counterexample: the legacy createEvent of src/index.js, called twice
with the same title and date-time, silently overwrites the stored event (the
description changes) instead of rejecting the duplicate and leaving the store
unchanged. -/
theorem c10_counterexample :
    IndexJs.createEvent (IndexJs.createEvent [] "Op" "2025-01-01 10:00" "first" "img")
        "Op" "2025-01-01 10:00" "second" "img" ≠
      IndexJs.createEvent [] "Op" "2025-01-01 10:00" "first" "img" := by decide

/-- C2 (amended): on startup, for a loaded event row with a positive lead
time, a future open instant reschedules the opening with the remaining delay
and a past open instant with no thread yet arms a zero-delay (immediate)
opening; an open thread whose deletion instant is still in the future has its
deletion rescheduled with the remaining delay; but when the deletion instant
has already passed, no close timer of any delay is armed — the close never
fires (and with lead time zero the opening is never rescheduled either). -/
theorem c2_recovery (now : Int) (e : Pg.StoredEvent) :
    (e.threadOpenHoursBefore > 0 →
      now < openTime e.startT e.threadOpenHoursBefore →
      Pg.TimerAction.scheduleOpen (openTime e.startT e.threadOpenHoursBefore - now) ∈
        Pg.recoverEvent now e) ∧
    (e.threadOpenHoursBefore > 0 → e.threadId = none →
      openTime e.startT e.threadOpenHoursBefore < now →
      Pg.TimerAction.scheduleOpen 0 ∈ Pg.recoverEvent now e) ∧
    (e.threadId ≠ none → e.threadOpenedAt ≠ none →
      now < (deleteTime e.endT : Int) →
      Pg.TimerAction.scheduleClose ((deleteTime e.endT : Int) - now) ∈
        Pg.recoverEvent now e) ∧
    ((deleteTime e.endT : Int) ≤ now →
      ∀ d, Pg.TimerAction.scheduleClose d ∉ Pg.recoverEvent now e) := by
  refine ⟨?_, ?_, ?_, ?_⟩
  · intro hl hfut
    apply List.mem_append.mpr
    left
    unfold Pg.recoverOpenActs
    rw [if_pos hl, if_pos hfut]
    have : timerDelay now (openTime e.startT e.threadOpenHoursBefore) =
        openTime e.startT e.threadOpenHoursBefore - now := by
      unfold timerDelay
      apply max_eq_right
      omega
    rw [this]
    exact List.mem_singleton.mpr rfl
  · intro hl htid hpast
    apply List.mem_append.mpr
    left
    unfold Pg.recoverOpenActs
    rw [if_pos hl, if_neg (by omega), if_pos ⟨htid, hpast⟩]
    have : timerDelay now (openTime e.startT e.threadOpenHoursBefore) = 0 := by
      unfold timerDelay
      apply max_eq_left
      omega
    rw [this]
    exact List.mem_singleton.mpr rfl
  · intro htid hopened hfut
    apply List.mem_append.mpr
    right
    unfold Pg.recoverCloseActs
    rw [if_pos ⟨htid, hopened⟩, if_pos hfut]
    have : timerDelay now ((deleteTime e.endT : Nat) : Int) =
        (deleteTime e.endT : Int) - now := by
      unfold timerDelay
      apply max_eq_right
      omega
    rw [this]
    exact List.mem_singleton.mpr rfl
  · intro hpast d hmem
    rcases List.mem_append.mp hmem with hm | hm
    · unfold Pg.recoverOpenActs at hm
      split_ifs at hm <;> simp_all
    · unfold Pg.recoverCloseActs at hm
      split_ifs at hm with hc1 hc2
      · omega
      · simp at hm
      · simp at hm

/-- Witness for C2 at time 0 on a row whose thread is open and whose
deletion instant 1441 is in the future: the close is rescheduled with the
remaining delay. -/
theorem c2_recovery_witness :
    openThreadRowNoLead.threadId ≠ none ∧
    openThreadRowNoLead.threadOpenedAt ≠ none ∧
    (0 : Int) < (deleteTime openThreadRowNoLead.endT : Int) ∧
    Pg.TimerAction.scheduleClose ((deleteTime openThreadRowNoLead.endT : Int) - 0) ∈
      Pg.recoverEvent 0 openThreadRowNoLead :=
  ⟨by decide, by decide, by decide,
    (c2_recovery 0 openThreadRowNoLead).2.2.1 (by decide) (by decide) (by decide)⟩

/-- C2 counterexample: for a row with an open thread whose deletion instant
(minute 1441) is already long past at startup time 10000, the recovery block
arms no timer at all — in particular no immediate close fires, contrary to
the recovery contract of the spec. -/
theorem c2_counterexample :
    Pg.recoverEvent 10000 openThreadRow = [] ∧
    Pg.TimerAction.scheduleClose 0 ∉ Pg.recoverEvent 10000 openThreadRow := by
  decide

/-- C6: whenever the RSVP handler records a transition to Tentative or
Declined (the handler result is ok), the attendee record afterwards carries
that status with primary role, class and cached emoji all null —
unconditionally, whatever role and class were held before. -/
theorem c6_standdown_clears (e : Event) (uid : String) (mr : List String)
    (raw s : String) (hms : Bot.mapRawStatus raw = some s)
    (hs : s = "Tentative" ∨ s = "Declined")
    (hok : (Bot.handleRSVP e uid mr raw).1 = Bot.RSVPResult.ok) :
    ∃ a, findAttendee (Bot.handleRSVP e uid mr raw).2 uid = some a ∧
      a.rsvpStatus = some s ∧ a.primaryRole = none ∧ a.className = none ∧
      a.emoji = none := by
  unfold Bot.handleRSVP at hok ⊢
  by_cases hc : e.restrictedRoles ≠ [] ∧
      ¬ (e.restrictedRoles.any (fun r => mr.contains r) = true)
  · rw [if_pos hc] at hok
    exact absurd hok (by simp)
  · rw [if_neg hc] at hok ⊢
    rw [hms] at hok ⊢
    rcases findOrPushAttendee_find?_isSome e.attendees uid with ⟨b, hb⟩
    refine ⟨Bot.applyStatus s b, ?_, applyStatus_clears hs b⟩
    show (updateFirstAttendee (findOrPushAttendee e.attendees uid) uid
        (Bot.applyStatus s)).find? (fun x => x.userId == uid) =
      some (Bot.applyStatus s b)
    rw [updateFirstAttendee_find? (fun a => applyStatus_userId s a), hb,
      Option.map_some']

/-- Witness for C6: a confirmed Infantry Medic declines and loses role, class
and emoji. -/
theorem c6_standdown_clears_witness :
    Bot.mapRawStatus "decline" = some "Declined" ∧
    (("Declined" : String) = "Tentative" ∨ ("Declined" : String) = "Declined") ∧
    (Bot.handleRSVP confirmedEvent "u" [] "decline").1 = Bot.RSVPResult.ok ∧
    ∃ a, findAttendee (Bot.handleRSVP confirmedEvent "u" [] "decline").2 "u" =
        some a ∧
      a.rsvpStatus = some "Declined" ∧ a.primaryRole = none ∧
      a.className = none ∧ a.emoji = none :=
  ⟨by decide, by decide, by decide,
    c6_standdown_clears confirmedEvent "u" [] "decline" "Declined" (by decide)
      (by decide) (by decide)⟩

/-- C5 (amended): the class selection handler of part_008 performs no
validation at all.  For any attendee record and any selected value it
succeeds, writes the selected value into the class field and sets the status
to Attending; when the selection is not declared under the primary role the
attendee currently holds, no error is raised — the record is still changed
and only the cached emoji falls back to null.  Credential gates and
declaredness are enforced solely by filtering the options of the menu that is
shown, not by the handler. -/
theorem c5_no_validation (e : Event) (uid v : String) (a : Attendee)
    (hfind : findAttendee e uid = some a) :
    (Bot.selectClass e uid v).1 = Bot.SelectResult.ok ∧
    findAttendee (Bot.selectClass e uid v).2 uid =
      some (Bot.selectClassStep e.roles v a) ∧
    (Bot.selectClassStep e.roles v a).className = some v ∧
    (Bot.selectClassStep e.roles v a).rsvpStatus = some "Attending" ∧
    ((¬ ∃ p, a.primaryRole = some p ∧ declaredUnder e.roles p v) →
      (Bot.selectClassStep e.roles v a).emoji = none) := by
  have hfind2 : e.attendees.find? (fun b => b.userId == uid) = some a := hfind
  have hany := any_of_find? hfind2
  refine ⟨?_, ?_, rfl, rfl, ?_⟩
  · unfold Bot.selectClass
    rw [if_pos hany]
  · show ((Bot.selectClass e uid v).2).attendees.find? (fun b => b.userId == uid) =
      some (Bot.selectClassStep e.roles v a)
    unfold Bot.selectClass
    rw [if_pos hany]
    show (updateFirstAttendee e.attendees uid (Bot.selectClassStep e.roles v)).find?
        (fun b => b.userId == uid) = some (Bot.selectClassStep e.roles v a)
    rw [updateFirstAttendee_find?
      (fun x => (selectClassStep_fields e.roles v x).2.2.2), hfind2, Option.map_some']
  · intro hnot
    show (match a.primaryRole with
      | none => none
      | some p =>
        match e.roles.find? (fun r => r.primaryRole == p) with
        | none => none
        | some r =>
          (r.classes.find? (fun c => c.className == v)).map (fun c => c.emoji)) =
      (none : Option String)
    rcases hpr : a.primaryRole with _ | p
    · rfl
    · show (match e.roles.find? (fun r => r.primaryRole == p) with
        | none => none
        | some r =>
          (r.classes.find? (fun c => c.className == v)).map (fun c => c.emoji)) =
        (none : Option String)
      rcases hr : e.roles.find? (fun r => r.primaryRole == p) with _ | r
      · rw [hr]
      · rw [hr]
        show ((r.classes.find? (fun c => c.className == v)).map (fun c => c.emoji)) =
          (none : Option String)
        rcases hcl : r.classes.find? (fun c => c.className == v) with _ | c
        · rw [hcl]
          rfl
        · exfalso
          have hrp := List.find?_some hr
          have hcv := List.find?_some hcl
          exact hnot ⟨p, hpr, r, List.mem_of_find?_eq_some hr, eq_of_beq hrp, c,
            List.mem_of_find?_eq_some hcl, eq_of_beq hcv⟩

/-- Witness for C5 (amended) on the Commander attendee selecting Medic. -/
theorem c5_no_validation_witness :
    findAttendee commanderEvent "u" = some commanderAttendee ∧
    ((Bot.selectClass commanderEvent "u" "Medic").1 = Bot.SelectResult.ok ∧
    findAttendee (Bot.selectClass commanderEvent "u" "Medic").2 "u" =
      some (Bot.selectClassStep commanderEvent.roles "Medic" commanderAttendee) ∧
    (Bot.selectClassStep commanderEvent.roles "Medic" commanderAttendee).className =
      some "Medic" ∧
    (Bot.selectClassStep commanderEvent.roles "Medic" commanderAttendee).rsvpStatus =
      some "Attending" ∧
    ((¬ ∃ p, commanderAttendee.primaryRole = some p ∧
        declaredUnder commanderEvent.roles p "Medic") →
      (Bot.selectClassStep commanderEvent.roles "Medic" commanderAttendee).emoji =
        none)) :=
  ⟨by decide, c5_no_validation commanderEvent "u" "Medic" commanderAttendee (by decide)⟩

/-- C5 counterexample: the attendee holds Commander, whose catalog entry
declares no classes, yet selecting Medic succeeds and changes the record
instead of failing with an invalid-sub-role error and leaving it unchanged. -/
theorem c5_counterexample :
    (Bot.selectClass commanderEvent "u" "Medic").1 = Bot.SelectResult.ok ∧
    (Bot.selectClass commanderEvent "u" "Medic").2 ≠ commanderEvent := by decide

/-- C1 (amended): the invariant — a status other than Attending forces both
role fields to null — is preserved by every operation sequence of the current
bot (RSVP recording, primary role selection, class selection, part_008); it
does not survive the direct class assignment of the legacy bot, which
creates an attendee with status Tentative carrying a role and class (see the
counterexample). -/
theorem c1_role_invariant_preserved (e : Event) (uid : String) (ops : List AttOp)
    (h : eventRoleInvariant e) : eventRoleInvariant (runOps e uid ops) := by
  induction ops generalizing e with
  | nil => exact h
  | cons op rest ih => exact ih (applyOp e uid op) (applyOp_roleInvariant e uid op h)

/-- Witness for C1 (amended) along a full accept, role, class, decline run. -/
theorem c1_role_invariant_preserved_witness :
    eventRoleInvariant botEvent ∧
    eventRoleInvariant (runOps botEvent "u" guidedTrace) :=
  ⟨fun a ha => absurd ha (List.not_mem_nil a),
    c1_role_invariant_preserved botEvent "u" guidedTrace
      (fun a ha => absurd ha (List.not_mem_nil a))⟩

/-- C1 counterexample: the legacy assignClassToUser (src/index.js) creates an
attendee whose status is Tentative while role and class are non-null, and the
subsequent legacy RSVP recording of Tentative leaves both fields untouched:
after these two cited operations the attendee violates the invariant. -/
theorem c1_counterexample :
    ((IndexJs.handleRSVP
        (IndexJs.assignClassToUser legacyEvent "u" "Infantry" "Medic").2
        "u" "Tentative").2).attendees =
      [{ userId := "u", rsvpStatus := some "Tentative",
         primaryRole := some "Infantry", className := some "Medic",
         emoji := some "🩹" }] := by decide

/-- C4 (amended): the invariant — a non-null class forces a non-null primary
role whose catalog entry declares that class — is preserved by every
operation sequence in which the menus are answered as the user interface
issues them: a primary role is selected only while none is held and a class
only while the primary role that declares it is held.  Without that proviso
the class selection handler, which writes the class unconditionally, breaks
the invariant (see the counterexample, where a stale class menu is answered
after a decline cleared the role). -/
theorem c4_class_invariant_guarded (e : Event) (uid : String) (ops : List AttOp)
    (hg : guardedRun e uid ops) (h : eventClassInvariant e) :
    eventClassInvariant (runOps e uid ops) := by
  induction ops generalizing e with
  | nil => exact h
  | cons op rest ih =>
    exact ih (applyOp e uid op) hg.2 (applyOp_classInvariant e uid op hg.1 h)

/-- Witness for C4 (amended) along the guided accept, Infantry, Medic run. -/
theorem c4_class_invariant_guarded_witness :
    guardedRun botEvent "u"
      [AttOp.rsvp [] "accept", AttOp.selRole "Infantry", AttOp.selClass "Medic"] ∧
    eventClassInvariant botEvent ∧
    eventClassInvariant (runOps botEvent "u"
      [AttOp.rsvp [] "accept", AttOp.selRole "Infantry", AttOp.selClass "Medic"]) :=
  ⟨⟨trivial, rfl, ⟨"Infantry", rfl, by decide⟩, trivial⟩,
    fun a ha => absurd ha (List.not_mem_nil a),
    c4_class_invariant_guarded botEvent "u"
      [AttOp.rsvp [] "accept", AttOp.selRole "Infantry", AttOp.selClass "Medic"]
      ⟨trivial, rfl, ⟨"Infantry", rfl, by decide⟩, trivial⟩
      (fun a ha => absurd ha (List.not_mem_nil a))⟩

/-- C4 counterexample: accept, select Infantry, decline (clearing the role),
then answer the stale class menu with Medic: the handler writes the class
unconditionally, leaving a record with a non-null class and a null primary
role after a transition of the state machine. -/
theorem c4_counterexample :
    (runOps botEvent "u" staleMenuTrace).attendees =
      [{ userId := "u", rsvpStatus := some "Attending", primaryRole := none,
         className := some "Medic", emoji := none }] := by decide
